import Mathlib

/-!
Verification of the dynamic Ansible inventory script `ansible/inventory.py`
of the dockflow repository.

The script is a deterministic transform of a small JSON context document
into an inventory JSON document, plus one conditional file write.  We embed
it shallowly:

* JSON values produced by `json.load` become the inductive type `JVal`;
  an object is the association list of its fields (keys unique, as in a
  Python dict — `json.load` keeps the last duplicate, so the list we model
  is the resulting dict).
* The context file read becomes `FileRead`: the file is missing, the read
  raises IOError, the parse raises JSONDecodeError, or a JSON value is
  obtained.  This is the granularity at which the script observes the file.
* The key file on disk is `Option KeyFile` (content as a character list
  plus the permission mode bits); `write_ssh_key` is a list of filesystem
  events (open-truncate, write, chmod) folded over that state, so the
  order of the write and the chmod is part of the model.
* Python exceptions that escape become `Except PyErr`; the script swallows
  JSONDecodeError/IOError around the read only, so AttributeError from
  calling `.get` or `.replace` on a non-dict / non-string propagates.
* Failure of the key-file write or chmod is injected through
  `WriteOutcome`, since the filesystem, not the program, decides it.
-/

namespace Dockflow

/-- JSON values as `json.load` returns them: null, booleans, numbers
(modelled as integers; the context schema only uses integer ports),
strings, arrays and objects. -/
inductive JVal where
  | null
  | bool (b : Bool)
  | num (n : Int)
  | str (s : String)
  | arr (elems : List JVal)
  | obj (fields : List (String × JVal))
deriving Repr

/-- Python `dict` lookup on the field list of an object: first (unique)
matching key.  Field lists model parsed dicts, whose keys are unique. -/
def dictGet (fields : List (String × JVal)) (k : String) : Option JVal :=
  match fields with
  | [] => none
  | (k2, v) :: rest => if k2 = k then some v else dictGet rest k

/-- Python truthiness of a JSON value, as used by `if private_key:` and
`if password:` in the script. -/
def pyTruthy : JVal → Bool
  | .null => false
  | .bool b => b
  | .num n => n != 0
  | .str s => s != ""
  | .arr elems => !elems.isEmpty
  | .obj fields => !fields.isEmpty

/-- Single-quote wrapping used by Python `repr` on strings.  (Python
additionally escapes quotes, backslashes and control characters inside the
string; no claim evaluates `str()` on a container holding such strings, so
the escaping is not modelled.) -/
def pyQuote (s : String) : String :=
  Char.toString (Char.ofNat 39) ++ s ++ Char.toString (Char.ofNat 39)

mutual

/-- Python `repr()` of a JSON value, needed by `str()` on containers. -/
def pyRepr : JVal → String
  | .null => "None"
  | .bool true => "True"
  | .bool false => "False"
  | .num n => toString n
  | .str s => pyQuote s
  | .arr elems => "[" ++ pyReprElems elems ++ "]"
  | .obj fields => "\x7b" ++ pyReprFields fields ++ "\x7d"

/-- Comma-joined reprs of array elements. -/
def pyReprElems : List JVal → String
  | [] => ""
  | [v] => pyRepr v
  | v :: w :: rest => pyRepr v ++ ", " ++ pyReprElems (w :: rest)

/-- Comma-joined reprs of object fields. -/
def pyReprFields : List (String × JVal) → String
  | [] => ""
  | [(k, v)] => pyQuote k ++ ": " ++ pyRepr v
  | (k, v) :: kw :: rest =>
      pyQuote k ++ ": " ++ pyRepr v ++ ", " ++ pyReprFields (kw :: rest)

end

/-- Python `str()` of a JSON value, as interpolated by the f-string
`f"{env}-{server_name}"`. -/
def pyStr : JVal → String
  | .str s => s
  | v => pyRepr v

/-! ### Key normalization (`write_ssh_key`, lines 20-33)

The script works on Python `str`; we work on `List Char` so that the
normalization pipeline is open to induction. -/

/-- Characters removed by Python `str.strip()` with no argument: ASCII
whitespace.  (Python also strips further Unicode whitespace; no claim
depends on those code points.) -/
def isPySpace (c : Char) : Bool :=
  c = ' ' || c = Char.ofNat 9 || c = Char.ofNat 10 || c = Char.ofNat 13 ||
  c = Char.ofNat 11 || c = Char.ofNat 12

/-- Python `str.strip()`: drop leading and trailing whitespace. -/
def pyStrip (l : List Char) : List Char :=
  ((l.dropWhile isPySpace).reverse.dropWhile isPySpace).reverse

/-- Python `str.replace(p1 ++ p2, r)` for a two-character pattern:
left-to-right scan, non-overlapping matches, scanning resumes after the
replacement text.  Both patterns used by the script have two characters. -/
def replace2 (p1 p2 : Char) (r : List Char) : List Char → List Char
  | [] => []
  | [c] => [c]
  | c1 :: c2 :: rest =>
      if c1 = p1 ∧ c2 = p2 then r ++ replace2 p1 p2 r rest
      else c1 :: replace2 p1 p2 r (c2 :: rest)

/-- Line 26: `private_key.replace('\\n', '\n').replace('\r\n', '\n').strip() + '\n'`.
The first replace turns each literal backslash-n into a line feed, the
second collapses CRLF to LF, then strip and a single appended LF. -/
def normalizeKey (pk : List Char) : List Char :=
  pyStrip (replace2 (Char.ofNat 13) (Char.ofNat 10) [Char.ofNat 10]
    (replace2 (Char.ofNat 92) 'n' [Char.ofNat 10] pk)) ++ [Char.ofNat 10]

/-! ### The filesystem model for the key file -/

/-- The fixed context-file path (line 16). -/
def CONTEXT_FILE : String := "/tmp/dockflow_context.json"

/-- The fixed key-file path (line 17). -/
def SSH_KEY_FILE : String := "/tmp/dockflow_key"

/-- `stat.S_IRUSR`: owner-read permission bit. -/
def S_IRUSR : Nat := 256

/-- `stat.S_IWUSR`: owner-write permission bit. -/
def S_IWUSR : Nat := 128

/-- State of the key file on disk: absent, or content plus permission
mode bits. -/
structure KeyFile where
  content : List Char
  mode : Nat
deriving Repr, DecidableEq

/-- Mode bits a plain `open(path, 'w')` leaves on the file: an existing
file keeps its mode; a new file is created with `0o666 & ~umask`,
commonly `0o644` (420).  No claim depends on this pre-chmod value. -/
def modeAfterOpen : Option KeyFile → Nat
  | some f => f.mode
  | none => 420

/-- Filesystem events the script performs on the key file. -/
inductive FsEvent where
  | openTruncate (path : String)
  | fileWrite (path : String) (content : List Char)
  | chmod (path : String) (mode : Nat)
deriving Repr, DecidableEq

/-- Effect of one event on the key-file state.  The script touches no
other path, so the state is just the key file. -/
def applyEvent (fs : Option KeyFile) : FsEvent → Option KeyFile
  | .openTruncate _ => some ⟨[], modeAfterOpen fs⟩
  | .fileWrite _ c =>
      match fs with
      | some f => some ⟨f.content ++ c, f.mode⟩
      | none => none
  | .chmod _ m =>
      match fs with
      | some f => some ⟨f.content, m⟩
      | none => none

/-- Fold a list of events over the key-file state. -/
def runEvents (fs : Option KeyFile) : List FsEvent → Option KeyFile
  | [] => fs
  | e :: rest => runEvents (applyEvent fs e) rest

/-- The events of `write_ssh_key` (lines 26-31), in program order:
`open(SSH_KEY_FILE, 'w')` truncates, `f.write(normalized_key)` writes the
normalized content, then `os.chmod(SSH_KEY_FILE, S_IRUSR | S_IWUSR)`. -/
def write_ssh_key_events (pk : List Char) : List FsEvent :=
  [.openTruncate SSH_KEY_FILE,
   .fileWrite SSH_KEY_FILE (normalizeKey pk),
   .chmod SSH_KEY_FILE (S_IRUSR ||| S_IWUSR)]

/-- `write_ssh_key` on the success path: returns the key-file path and
the new key-file state. -/
def write_ssh_key (pk : List Char) (fs : Option KeyFile) :
    String × Option KeyFile :=
  (SSH_KEY_FILE, runEvents fs (write_ssh_key_events pk))

/-- Exceptions that can escape to the caller in our fragment:
`AttributeError` from calling a method on a value of the wrong type, and
`IOError`/`OSError` from the filesystem. -/
inductive PyErr where
  | attributeError
  | ioError
deriving Repr, DecidableEq

/-- Fault injection for the key-file write: the filesystem may fail the
open/write step or the chmod step. -/
inductive WriteOutcome where
  | ok
  | writeFails
  | chmodFails
deriving Repr, DecidableEq

/-- `write_ssh_key` with filesystem faults: on `writeFails` the open
itself fails and the state is untouched; on `chmodFails` the content was
written but the mode was not restricted. -/
def write_ssh_key_run (pk : List Char) (fs : Option KeyFile)
    (wo : WriteOutcome) : Except PyErr String × Option KeyFile :=
  match wo with
  | .ok => ((Except.ok (write_ssh_key pk fs).1), (write_ssh_key pk fs).2)
  | .writeFails => (Except.error PyErr.ioError, fs)
  | .chmodFails =>
      (Except.error PyErr.ioError,
       runEvents fs ((write_ssh_key_events pk).take 2))

/-! ### `get_inventory` (lines 36-91) -/

/-- What the script observes when it reads the context file: the file is
missing (`os.path.exists` false), the read raises `IOError`, `json.load`
raises `JSONDecodeError`, or a JSON value is obtained.  The error cases
carry the text of the Python exception message. -/
inductive FileRead where
  | missing
  | ioErr (msg : String)
  | parseErr (msg : String)
  | parsed (v : JVal)

/-- Result of one run of `get_inventory`: the returned document (or the
escaping exception), the lines printed to stderr, and the key-file state
after the run. -/
structure RunResult where
  output : Except PyErr JVal
  stderr : List String
  keyFile : Option KeyFile

/-- The empty inventory shape returned when there is no usable context
(lines 42 and 49). -/
def emptyInventory : JVal :=
  .obj [("_meta", .obj [("hostvars", .obj [])])]

/-- The stderr diagnostic of line 48. -/
def readErrMsg (msg : String) : String :=
  "Error reading context file: " ++ msg

/-- Line 52: `ctx.get('ssh_connection', ctx.get('connection', {}))`. -/
def connOf (fields : List (String × JVal)) : JVal :=
  (dictGet fields "ssh_connection").getD
    ((dictGet fields "connection").getD (.obj []))

/-- Line 53: `ctx.get('env', 'unknown')`. -/
def envOf (fields : List (String × JVal)) : JVal :=
  (dictGet fields "env").getD (.str "unknown")

/-- Line 54: `ctx.get('server_name', 'server')`. -/
def serverNameOf (fields : List (String × JVal)) : JVal :=
  (dictGet fields "server_name").getD (.str "server")

/-- Line 62: `host_name = f"{env}-{server_name}"`. -/
def hostNameOf (fields : List (String × JVal)) : String :=
  pyStr (envOf fields) ++ "-" ++ pyStr (serverNameOf fields)

/-- Lines 65-76: the hostvars dict, in insertion order; the become
password is appended only when `connection.get('password', '')` is
truthy. -/
def hostvarsFor (conn : List (String × JVal)) : List (String × JVal) :=
  [("ansible_host", (dictGet conn "host").getD (.str "")),
   ("ansible_port", (dictGet conn "port").getD (.num 22)),
   ("ansible_user", (dictGet conn "user").getD (.str "root")),
   ("ansible_ssh_private_key_file", .str "/tmp/dockflow_key"),
   ("ansible_ssh_common_args",
    .str "-o StrictHostKeyChecking=no -o UserKnownHostsFile=/dev/null")] ++
  (if pyTruthy ((dictGet conn "password").getD (.str "")) then
    [("ansible_become_password", (dictGet conn "password").getD (.str ""))]
   else [])

/-- Lines 79-89: the inventory document built around one host name and
its hostvars. -/
def inventoryFor (host_name : String) (hv : List (String × JVal)) : JVal :=
  .obj [("all", .obj [("hosts", .arr [.str host_name]),
                      ("vars", .obj [])]),
        ("_meta", .obj [("hostvars", .obj [(host_name, .obj hv)])])]

/-- Lines 52-91 applied to a context that parsed to an object.  The
`try` of lines 44-49 does not cover this part, so `AttributeError` from
`connection.get` on a non-dict (line 57) or `.replace` on a non-string
key (line 26), and `IOError` from the key write (lines 29-31), escape. -/
def inventory_of_ctx (fields : List (String × JVal)) (ks : Option KeyFile)
    (wo : WriteOutcome) : RunResult :=
  match connOf fields with
  | .obj conn =>
      let pk := (dictGet conn "private_key").getD (.str "")
      if pyTruthy pk then
        match pk with
        | .str s =>
            match write_ssh_key_run s.data ks wo with
            | (.ok _, ks2) =>
                ⟨.ok (inventoryFor (hostNameOf fields) (hostvarsFor conn)),
                 [], ks2⟩
            | (.error e, ks2) => ⟨.error e, [], ks2⟩
        | _ => ⟨.error .attributeError, [], ks⟩
      else
        ⟨.ok (inventoryFor (hostNameOf fields) (hostvarsFor conn)), [], ks⟩
  | _ => ⟨.error .attributeError, [], ks⟩

/-- `get_inventory` (lines 36-91).  A missing file returns the empty
shape silently; a read or parse failure prints a diagnostic and returns
the empty shape; a parsed non-object raises `AttributeError` at
`ctx.get` (line 52), which nothing catches. -/
def get_inventory (file : FileRead) (ks : Option KeyFile)
    (wo : WriteOutcome) : RunResult :=
  match file with
  | .missing => ⟨.ok emptyInventory, [], ks⟩
  | .ioErr m => ⟨.ok emptyInventory, [readErrMsg m], ks⟩
  | .parseErr m => ⟨.ok emptyInventory, [readErrMsg m], ks⟩
  | .parsed (.obj fields) => inventory_of_ctx fields ks wo
  | .parsed _ => ⟨.error .attributeError, [], ks⟩

/-! ### `main` (lines 93-106) -/

/-- Python `value.get(key, default)`: dict lookup with default, or
`AttributeError` when the value is not a dict. -/
def pyDictGet (v : JVal) (k : String) (d : JVal) : Except PyErr JVal :=
  match v with
  | .obj fields => .ok ((dictGet fields k).getD d)
  | _ => .error .attributeError

/-- Line 102: `inventory.get('_meta', {}).get('hostvars', {}).get(host, {})`. -/
def hostLookup (inv : JVal) (host : String) : Except PyErr JVal :=
  match pyDictGet inv "_meta" (.obj []) with
  | .error e => .error e
  | .ok m1 =>
      match pyDictGet m1 "hostvars" (.obj []) with
      | .error e => .error e
      | .ok hv => pyDictGet hv host (.obj [])

/-- Observable outcome of one process run: the JSON document printed to
stdout (if the run reached a print), the stderr lines, whether the exit
status was zero, and the final key-file state. -/
structure ProcResult where
  stdout : Option JVal
  stderr : List String
  exitZero : Bool
  keyFile : Option KeyFile

/-- Stand-in for the traceback the interpreter prints on an uncaught
exception before exiting with status 1. -/
def tracebackMsg : String := "Traceback"

/-- Print the full inventory document (lines 97 and 106); an uncaught
exception instead aborts the process with a traceback and exit status 1. -/
def printFull (r : RunResult) : ProcResult :=
  match r.output with
  | .ok inv => ⟨some inv, r.stderr, true, r.keyFile⟩
  | .error _ => ⟨none, r.stderr ++ [tracebackMsg], false, r.keyFile⟩

/-- Print one host's hostvars (lines 100-103). -/
def printHost (host : String) (r : RunResult) : ProcResult :=
  match r.output with
  | .ok inv =>
      match hostLookup inv host with
      | .ok hv => ⟨some hv, r.stderr, true, r.keyFile⟩
      | .error _ => ⟨none, r.stderr ++ [tracebackMsg], false, r.keyFile⟩
  | .error _ => ⟨none, r.stderr ++ [tracebackMsg], false, r.keyFile⟩

/-- `main` (lines 93-106).  `argv` is the full `sys.argv`, program name
included.  The dispatch mirrors the source: `--list` with exactly two
argv entries prints the full inventory, `--host` with exactly three
prints one host's hostvars, everything else prints the full inventory. -/
def main_run (argv : List String) (file : FileRead) (ks : Option KeyFile)
    (wo : WriteOutcome) : ProcResult :=
  if argv.length = 2 ∧ argv.getD 1 "" = "--list" then
    printFull (get_inventory file ks wo)
  else if argv.length = 3 ∧ argv.getD 1 "" = "--host" then
    printHost (argv.getD 2 "") (get_inventory file ks wo)
  else
    printFull (get_inventory file ks wo)

/-- Top-level keys of a JSON object (empty for non-objects). -/
def jKeys : JVal → List String
  | .obj fields => fields.map (fun kv => kv.1)
  | _ => []

/-- Connection object of the end-to-end example of the spec (section 8). -/
def exampleConn : List (String × JVal) :=
  [("host", .str "10.0.0.5"), ("port", .num 2222), ("user", .str "deploy"),
   ("private_key", .str "KEYDATA")]

/-- Context fields of the end-to-end example of the spec (section 8). -/
def exampleFields : List (String × JVal) :=
  [("env", .str "prod"), ("server_name", .str "web1"),
   ("ssh_connection", .obj exampleConn)]

/-- A connection object carrying only a become password and no key. -/
def examplePwConn : List (String × JVal) :=
  [("password", .str "s3cret")]

/-- A context using the fallback `connection` key and default env and
server name. -/
def examplePwFields : List (String × JVal) :=
  [("connection", .obj examplePwConn)]

/-! ### Helper lemmas -/

/-- The first element surviving `dropWhile p` does not satisfy `p`. -/
theorem head?_dropWhile_not (p : Char → Bool) (l : List Char) (c : Char)
    (h : (l.dropWhile p).head? = some c) : p c = false := by
  induction l with
  | nil => simp [List.dropWhile] at h
  | cons a t ih =>
      rw [List.dropWhile_cons] at h
      by_cases hp : p a
      · rw [if_pos hp] at h
        exact ih h
      · rw [if_neg hp] at h
        simp only [List.head?_cons, Option.some.injEq] at h
        rw [← h]
        exact Bool.eq_false_iff.mpr hp

/-- The last element of a stripped string is not whitespace. -/
theorem pyStrip_getLast?_not_space (l : List Char) (c : Char)
    (h : (pyStrip l).getLast? = some c) : isPySpace c = false := by
  unfold pyStrip at h
  rw [List.getLast?_reverse] at h
  exact head?_dropWhile_not _ _ _ h

/-- The key-file state after a successful `write_ssh_key`: the normalized
content under mode `S_IRUSR ||| S_IWUSR`, whatever was there before. -/
theorem write_ssh_key_state (pk : List Char) (fs : Option KeyFile) :
    (write_ssh_key pk fs).2 = some ⟨normalizeKey pk, S_IRUSR ||| S_IWUSR⟩ := by
  cases fs <;> rfl

/-- Unfolding of the successful run on an object context whose resolved
connection is a dict and whose private key is absent or a string: the
returned document is the inventory built from the derived host name and
the hostvars, and nothing is printed to stderr. -/
theorem inventory_of_ctx_ok (fields conn : List (String × JVal))
    (ks : Option KeyFile)
    (hc : connOf fields = .obj conn)
    (hpk : dictGet conn "private_key" = none ∨
           ∃ s, dictGet conn "private_key" = some (.str s)) :
    (inventory_of_ctx fields ks .ok).output
      = .ok (inventoryFor (hostNameOf fields) (hostvarsFor conn)) ∧
    (inventory_of_ctx fields ks .ok).stderr = [] := by
  unfold inventory_of_ctx
  rw [hc]
  rcases hpk with hpk | ⟨s, hpk⟩
  · simp [hpk, pyTruthy]
  · by_cases hs : s = ""
    · subst hs
      simp [hpk, pyTruthy]
    · simp [hpk, pyTruthy, hs, write_ssh_key_run]

/-- Unfolding of the run on an object context whose resolved connection
is a dict with an absent or empty private key: no key write happens, the
key-file state is returned unchanged, for every write outcome. -/
theorem inventory_of_ctx_no_key (fields conn : List (String × JVal))
    (ks : Option KeyFile) (wo : WriteOutcome)
    (hc : connOf fields = .obj conn)
    (hpk : dictGet conn "private_key" = none ∨
           dictGet conn "private_key" = some (.str "")) :
    inventory_of_ctx fields ks wo
      = ⟨.ok (inventoryFor (hostNameOf fields) (hostvarsFor conn)),
         [], ks⟩ := by
  unfold inventory_of_ctx
  rw [hc]
  rcases hpk with hpk | hpk <;> simp [hpk, pyTruthy]

/-- Unfolding of the run on an object context whose connection dict has a
non-empty string private key while the filesystem fails the key write or
the chmod: the IOError escapes, with nothing on stderr. -/
theorem inventory_of_ctx_write_failure (fields conn : List (String × JVal))
    (s : String) (ks : Option KeyFile) (wo : WriteOutcome)
    (hc : connOf fields = .obj conn)
    (hpk : dictGet conn "private_key" = some (.str s)) (hs : s ≠ "")
    (hwo : wo = .writeFails ∨ wo = .chmodFails) :
    (inventory_of_ctx fields ks wo).output = .error .ioError ∧
    (inventory_of_ctx fields ks wo).stderr = [] := by
  unfold inventory_of_ctx
  rw [hc]
  rcases hwo with rfl | rfl <;>
    simp [hpk, pyTruthy, hs, write_ssh_key_run]

/-- The derived host name under the stated defaults. -/
theorem hostNameOf_eq (fields : List (String × JVal)) (e sn : String)
    (he : dictGet fields "env" = some (.str e) ∨
          (dictGet fields "env" = none ∧ e = "unknown"))
    (hs : dictGet fields "server_name" = some (.str sn) ∨
          (dictGet fields "server_name" = none ∧ sn = "server")) :
    hostNameOf fields = e ++ "-" ++ sn := by
  unfold hostNameOf envOf serverNameOf
  rcases he with he | ⟨he, rfl⟩ <;> rcases hs with hs | ⟨hs, rfl⟩ <;>
    simp [he, hs, pyStr]

/-- Every invocation form runs `get_inventory` once and prints either
the full inventory or one host's hostvars. -/
theorem main_run_cases (argv : List String) (file : FileRead)
    (ks : Option KeyFile) (wo : WriteOutcome) :
    main_run argv file ks wo = printFull (get_inventory file ks wo) ∨
    ∃ h, main_run argv file ks wo
        = printHost h (get_inventory file ks wo) := by
  unfold main_run
  by_cases h1 : argv.length = 2 ∧ argv.getD 1 "" = "--list"
  · rw [if_pos h1]
    exact Or.inl rfl
  · rw [if_neg h1]
    by_cases h2 : argv.length = 3 ∧ argv.getD 1 "" = "--host"
    · rw [if_pos h2]
      exact Or.inr ⟨_, rfl⟩
    · rw [if_neg h2]
      exact Or.inl rfl

/-- Host lookup on the empty inventory shape yields the empty object,
whatever the queried name. -/
theorem hostLookup_emptyInventory (h : String) :
    hostLookup emptyInventory h = .ok (.obj []) := rfl

/-- Host lookup on a one-host inventory yields that host's hostvars for
its name and the empty object for every other name. -/
theorem hostLookup_inventoryFor (hn n : String)
    (hv : List (String × JVal)) :
    hostLookup (inventoryFor hn hv) n
      = .ok (if hn = n then .obj hv else .obj []) := by
  unfold hostLookup inventoryFor pyDictGet
  by_cases h : hn = n <;> simp [dictGet, h]

/-- An escaping exception aborts the full-inventory print with a
traceback and nonzero exit status. -/
theorem printFull_error (r : RunResult) (e : PyErr)
    (h : r.output = .error e) :
    (printFull r).exitZero = false ∧
    tracebackMsg ∈ (printFull r).stderr ∧
    (printFull r).stdout = none := by
  unfold printFull
  rw [h]
  simp

/-- An escaping exception aborts the single-host print with a traceback
and nonzero exit status. -/
theorem printHost_error (host : String) (r : RunResult) (e : PyErr)
    (h : r.output = .error e) :
    (printHost host r).exitZero = false ∧
    tracebackMsg ∈ (printHost host r).stderr ∧
    (printHost host r).stdout = none := by
  unfold printHost
  rw [h]
  simp

/-- A successful run prints the full inventory and exits with status 0. -/
theorem printFull_ok (r : RunResult) (inv : JVal)
    (h : r.output = .ok inv) :
    (printFull r).exitZero = true ∧ (printFull r).stdout = some inv := by
  unfold printFull
  rw [h]
  exact ⟨rfl, rfl⟩

/-- A successful run whose document has one of the two shapes
`get_inventory` can return prints a hostvars record (possibly empty) and
exits with status 0. -/
theorem printHost_ok (host : String) (r : RunResult) (inv : JVal)
    (h : r.output = .ok inv)
    (hshape : inv = emptyInventory ∨
              ∃ hn hv, inv = inventoryFor hn hv) :
    (printHost host r).exitZero = true := by
  unfold printHost
  rw [h]
  rcases hshape with rfl | ⟨hn, hv, rfl⟩
  · simp [hostLookup_emptyInventory]
  · simp [hostLookup_inventoryFor]

/-! ### Claim C1 -/

/-- C1, counterexample.  The claim says `get_inventory` never raises for
any file content, in particular for content that parses as JSON but is
not a JSON object.  A context file containing the JSON array `[]` parses
fine, but `ctx.get('ssh_connection', ...)` on a list raises an
`AttributeError` which the `except (json.JSONDecodeError, IOError)`
clause does not catch, so the error escapes to the caller. -/
theorem get_inventory_raises_on_non_object_context :
    (get_inventory (.parsed (.arr [])) none .ok).output
      = .error .attributeError := rfl

/-- C1, amended.  `get_inventory` internalizes exactly the read-level
failures: a missing context file yields the empty shape silently, and a
read (`IOError`) or parse (`JSONDecodeError`) failure emits one stderr
diagnostic and yields the same empty shape, with the key file untouched.
Content that parses to a non-object JSON value is not internalized (see
the counterexample). -/
theorem get_inventory_swallows_read_parse_failures (file : FileRead)
    (ks : Option KeyFile) (wo : WriteOutcome)
    (h : file = .missing ∨ (∃ m, file = .ioErr m) ∨
         (∃ m, file = .parseErr m)) :
    (get_inventory file ks wo).output = .ok emptyInventory ∧
    (get_inventory file ks wo).keyFile = ks ∧
    (file = .missing → (get_inventory file ks wo).stderr = []) ∧
    (∀ m, file = .ioErr m →
      (get_inventory file ks wo).stderr = [readErrMsg m]) ∧
    (∀ m, file = .parseErr m →
      (get_inventory file ks wo).stderr = [readErrMsg m]) := by
  rcases h with rfl | ⟨m, rfl⟩ | ⟨m, rfl⟩ <;> simp [get_inventory]

/-- C1, witness: the amended theorem applied to a missing context file. -/
theorem get_inventory_swallows_witness :
    (get_inventory .missing none .ok).output = .ok emptyInventory :=
  (get_inventory_swallows_read_parse_failures .missing none .ok
    (Or.inl rfl)).1

/-! ### Claim C2 -/

/-- C2, counterexample.  The claim says the written key file never holds
a carriage-return character.  For the input `"a\rb"` (a lone CR, not part
of a CRLF pair) neither replacement fires and the CR is interior, so the
file content is `"a\rb\n"`, which contains a carriage return. -/
theorem write_ssh_key_carriage_return_survives :
    (write_ssh_key ("a\rb".data) none).2
      = some ⟨"a\rb\n".data, S_IRUSR ||| S_IWUSR⟩ ∧
    Char.ofNat 13 ∈ "a\rb\n".data := by
  exact ⟨rfl, by decide⟩

/-- C2, amended.  For every input the written key file ends with exactly
one trailing line feed: the content is `t ++ "\n"` where `t` ends in
neither a line feed nor a carriage return (so the terminator is a single
LF).  Carriage returns may however survive in the interior of the
content when they are not part of a literal-backslash-n or CRLF pair at
scan time (see the counterexample). -/
theorem write_ssh_key_single_trailing_newline (pk : List Char)
    (fs : Option KeyFile) :
    ∃ t, (write_ssh_key pk fs).2
        = some ⟨t ++ [Char.ofNat 10], S_IRUSR ||| S_IWUSR⟩ ∧
      t.getLast? ≠ some (Char.ofNat 10) ∧
      t.getLast? ≠ some (Char.ofNat 13) := by
  refine ⟨pyStrip (replace2 (Char.ofNat 13) (Char.ofNat 10) [Char.ofNat 10]
    (replace2 (Char.ofNat 92) 'n' [Char.ofNat 10] pk)), ?_, ?_, ?_⟩
  · exact write_ssh_key_state pk fs
  · intro h
    have := pyStrip_getLast?_not_space _ _ h
    simp [isPySpace] at this
  · intro h
    have := pyStrip_getLast?_not_space _ _ h
    simp [isPySpace] at this

/-! ### Claim C3 -/

/-- C3.  The normalization pipeline of `write_ssh_key` is: literal
backslash-n to LF, then CRLF to LF, then strip, then append one LF
(first conjunct, the definition spelled out).  The stated round-trip
holds: input `"line1\\nline2\r\n"` (literal backslash-n, then CRLF)
produces file content exactly `"line1\nline2\n"`.  Two further concrete
inputs pin the order of the steps: `"\r\\n"` becomes bare `"\n"` only
because the backslash-n replacement runs before the CRLF replacement,
and `"x\n\n"` becomes `"x\n"` only because the strip runs before the
final LF is appended. -/
theorem write_ssh_key_normalization_pipeline :
    (∀ pk, normalizeKey pk =
      pyStrip (replace2 (Char.ofNat 13) (Char.ofNat 10) [Char.ofNat 10]
        (replace2 (Char.ofNat 92) 'n' [Char.ofNat 10] pk))
        ++ [Char.ofNat 10]) ∧
    (∀ fs, (write_ssh_key ("line1\\nline2\r\n".data) fs).2
      = some ⟨"line1\nline2\n".data, S_IRUSR ||| S_IWUSR⟩) ∧
    normalizeKey ("\r\\n".data) = "\n".data ∧
    normalizeKey ("x\n\n".data) = "x\n".data := by
  refine ⟨fun pk => rfl, fun fs => ?_, by decide, by decide⟩
  cases fs <;> rfl

/-! ### Claim C4 -/

/-- C4.  With no context file, `get_inventory` returns exactly the
document with the single top-level key `_meta` holding an empty
`hostvars` mapping — no `all` key, no hosts — with nothing on stderr, no
escaping exception, and the key file untouched. -/
theorem get_inventory_missing_file (ks : Option KeyFile)
    (wo : WriteOutcome) :
    get_inventory .missing ks wo
      = ⟨.ok (.obj [("_meta", .obj [("hostvars", .obj [])])]), [], ks⟩ ∧
    jKeys emptyInventory = ["_meta"] :=
  ⟨rfl, rfl⟩

/-! ### Claim C5 -/

/-- C5.  For a well-formed context object whose resolved connection is a
dict, the host identifier is `env ++ "-" ++ server_name` with `env`
defaulting to `"unknown"` and `server_name` to `"server"`; the connection
is taken from `ssh_connection`, falling back to `connection`, falling
back to the empty object; the returned document's `all` entry holds
exactly the one-element host list for that identifier and an empty
`vars` mapping. -/
theorem get_inventory_host_identifier (fields conn : List (String × JVal))
    (ks : Option KeyFile) (e sn : String)
    (he : dictGet fields "env" = some (.str e) ∨
          (dictGet fields "env" = none ∧ e = "unknown"))
    (hs : dictGet fields "server_name" = some (.str sn) ∨
          (dictGet fields "server_name" = none ∧ sn = "server"))
    (hc : connOf fields = .obj conn)
    (hpk : dictGet conn "private_key" = none ∨
           ∃ s, dictGet conn "private_key" = some (.str s)) :
    (get_inventory (.parsed (.obj fields)) ks .ok).output
      = .ok (inventoryFor (e ++ "-" ++ sn) (hostvarsFor conn)) ∧
    (∀ v, dictGet fields "ssh_connection" = some v → connOf fields = v) ∧
    (dictGet fields "ssh_connection" = none →
      ∀ v, dictGet fields "connection" = some v → connOf fields = v) ∧
    (dictGet fields "ssh_connection" = none →
      dictGet fields "connection" = none → connOf fields = .obj []) ∧
    pyDictGet (inventoryFor (e ++ "-" ++ sn) (hostvarsFor conn)) "all" .null
      = .ok (.obj [("hosts", .arr [.str (e ++ "-" ++ sn)]),
                   ("vars", .obj [])]) := by
  have h1 := inventory_of_ctx_ok fields conn ks hc hpk
  have h2 := hostNameOf_eq fields e sn he hs
  refine ⟨?_, ?_, ?_, ?_, ?_⟩
  · show (inventory_of_ctx fields ks .ok).output = _
    rw [h1.1, h2]
  · intro v hv
    simp [connOf, hv]
  · intro h0 v hv
    simp [connOf, h0, hv]
  · intro h0 h0'
    simp [connOf, h0, h0']
  · rfl

/-- C5, witness: the spec's end-to-end example derives host identifier
`prod-web1`. -/
theorem get_inventory_host_identifier_witness :
    (get_inventory (.parsed (.obj exampleFields)) none .ok).output
      = .ok (inventoryFor ("prod" ++ "-" ++ "web1")
             (hostvarsFor exampleConn)) :=
  (get_inventory_host_identifier exampleFields exampleConn none "prod"
    "web1" (Or.inl rfl) (Or.inl rfl) rfl (Or.inr ⟨"KEYDATA", rfl⟩)).1

/-! ### Claim C6 -/

/-- C6.  On the successful path, the hostvars record carried by the
returned document is `hostvarsFor conn`, and it maps
`ansible_become_password` to the connection's password exactly when that
password is a present, non-empty string; for an absent or empty password
the key is absent. -/
theorem get_inventory_become_password (fields conn : List (String × JVal))
    (ks : Option KeyFile)
    (hc : connOf fields = .obj conn)
    (hpk : dictGet conn "private_key" = none ∨
           ∃ s, dictGet conn "private_key" = some (.str s)) :
    (get_inventory (.parsed (.obj fields)) ks .ok).output
      = .ok (inventoryFor (hostNameOf fields) (hostvarsFor conn)) ∧
    (dictGet conn "password" = none →
      dictGet (hostvarsFor conn) "ansible_become_password" = none) ∧
    (dictGet conn "password" = some (.str "") →
      dictGet (hostvarsFor conn) "ansible_become_password" = none) ∧
    (∀ p, dictGet conn "password" = some (.str p) → p ≠ "" →
      dictGet (hostvarsFor conn) "ansible_become_password"
        = some (.str p)) := by
  have h1 := inventory_of_ctx_ok fields conn ks hc hpk
  refine ⟨h1.1, ?_, ?_, ?_⟩
  · intro h0
    simp [hostvarsFor, dictGet, h0, pyTruthy]
  · intro h0
    simp [hostvarsFor, dictGet, h0, pyTruthy]
  · intro p h0 hp
    simp [hostvarsFor, dictGet, h0, pyTruthy, hp]

/-- C6, witness: a context whose connection carries the non-empty
password maps the become-password key to it. -/
theorem get_inventory_become_password_witness :
    dictGet (hostvarsFor examplePwConn) "ansible_become_password"
      = some (.str "s3cret") :=
  (get_inventory_become_password examplePwFields examplePwConn none rfl
    (Or.inl rfl)).2.2.2 "s3cret" rfl (by decide)

/-! ### Claim C10 -/

/-- C10.  When the connection dict has no `private_key` field or its
value is the empty string, `get_inventory` performs no key-file write at
all — the run returns with the key-file state it was given, whatever
content and permissions it holds — while the hostvars record still maps
`ansible_ssh_private_key_file` to the fixed path `/tmp/dockflow_key`. -/
theorem get_inventory_no_key_write (fields conn : List (String × JVal))
    (ks : Option KeyFile) (wo : WriteOutcome)
    (hc : connOf fields = .obj conn)
    (hpk : dictGet conn "private_key" = none ∨
           dictGet conn "private_key" = some (.str "")) :
    get_inventory (.parsed (.obj fields)) ks wo
      = ⟨.ok (inventoryFor (hostNameOf fields) (hostvarsFor conn)),
         [], ks⟩ ∧
    dictGet (hostvarsFor conn) "ansible_ssh_private_key_file"
      = some (.str "/tmp/dockflow_key") := by
  refine ⟨?_, ?_⟩
  · show inventory_of_ctx fields ks wo = _
    exact inventory_of_ctx_no_key fields conn ks wo hc hpk
  · simp [hostvarsFor, dictGet]

/-- C10, witness: a keyless context leaves a pre-existing key file with
mode `0o777` and stale content untouched. -/
theorem get_inventory_no_key_write_witness :
    get_inventory (.parsed (.obj examplePwFields))
        (some ⟨"OLD".data, 511⟩) .ok
      = ⟨.ok (inventoryFor (hostNameOf examplePwFields)
              (hostvarsFor examplePwConn)), [],
         some ⟨"OLD".data, 511⟩⟩ :=
  (get_inventory_no_key_write examplePwFields examplePwConn
    (some ⟨"OLD".data, 511⟩) .ok rfl (Or.inl rfl)).1

/-! ### Claim C9 -/

/-- C9.  After a successful `write_ssh_key` the key file's mode is
`S_IRUSR ||| S_IWUSR` = `0o600`: owner digit 6 (read+write), group digit
0, other digit 0 — no access beyond owner read/write.  The chmod event
is the final filesystem event of the operation and comes after the
content-write event. -/
theorem write_ssh_key_restricts_permissions_last (pk : List Char)
    (fs : Option KeyFile) :
    (write_ssh_key pk fs).2
      = some ⟨normalizeKey pk, S_IRUSR ||| S_IWUSR⟩ ∧
    S_IRUSR ||| S_IWUSR = 384 ∧
    ((S_IRUSR ||| S_IWUSR) / 64) % 8 = 6 ∧
    ((S_IRUSR ||| S_IWUSR) / 8) % 8 = 0 ∧
    (S_IRUSR ||| S_IWUSR) % 8 = 0 ∧
    (write_ssh_key_events pk)[1]?
      = some (.fileWrite SSH_KEY_FILE (normalizeKey pk)) ∧
    (write_ssh_key_events pk)[2]?
      = some (.chmod SSH_KEY_FILE (S_IRUSR ||| S_IWUSR)) ∧
    (write_ssh_key_events pk).length = 3 :=
  ⟨write_ssh_key_state pk fs, rfl, rfl, rfl, rfl, rfl, rfl, rfl⟩

/-! ### Claim C7 -/

/-- C7.  CLI dispatch: every argument vector that is not of the form
`[prog, "--host", name]` behaves exactly like `--list` (first conjunct);
`--host name` prints that host's hostvars record when `name` is the
derived identifier and the empty object otherwise (second conjunct), and
the empty object on the empty inventory (third conjunct); `--list`
prints the full inventory document (fourth conjunct). -/
theorem main_dispatch (file : FileRead) (ks : Option KeyFile)
    (wo : WriteOutcome) :
    (∀ argv, (¬ ∃ p n, argv = [p, "--host", n]) →
      main_run argv file ks wo
        = main_run ["inventory.py", "--list"] file ks wo) ∧
    (∀ p n hn hv,
      (get_inventory file ks wo).output = .ok (inventoryFor hn hv) →
      (main_run [p, "--host", n] file ks wo).stdout
        = some (if hn = n then .obj hv else .obj [])) ∧
    (∀ p n, (get_inventory file ks wo).output = .ok emptyInventory →
      (main_run [p, "--host", n] file ks wo).stdout = some (.obj [])) ∧
    (∀ p inv, (get_inventory file ks wo).output = .ok inv →
      (main_run [p, "--list"] file ks wo).stdout = some inv) := by
  have hhost : ∀ p n, main_run [p, "--host", n] file ks wo
      = printHost n (get_inventory file ks wo) := by
    intro p n
    unfold main_run
    rw [if_neg (by rintro ⟨h2, -⟩; simp at h2), if_pos ⟨rfl, rfl⟩]
    rfl
  refine ⟨?_, ?_, ?_, ?_⟩
  · intro argv hnot
    rcases argv with _ | ⟨a, _ | ⟨b, _ | ⟨c, _ | ⟨d, rest⟩⟩⟩⟩
    · rfl
    · rfl
    · by_cases hb : b = "--list"
      · subst hb
        rfl
      · simp [main_run, hb]
    · have hb : b ≠ "--host" := by
        intro hb
        exact hnot ⟨a, c, by rw [hb]⟩
      simp [main_run, hb]
    · have h1 : ¬((a :: b :: c :: d :: rest).length = 2 ∧
          (a :: b :: c :: d :: rest).getD 1 "" = "--list") := by
        rintro ⟨h, -⟩
        simp only [List.length_cons] at h
        omega
      have h2 : ¬((a :: b :: c :: d :: rest).length = 3 ∧
          (a :: b :: c :: d :: rest).getD 1 "" = "--host") := by
        rintro ⟨h, -⟩
        simp only [List.length_cons] at h
        omega
      unfold main_run
      rw [if_neg h1, if_neg h2]
      rfl
  · intro p n hn hv h
    rw [hhost p n]
    simp [printHost, h, hostLookup_inventoryFor]
  · intro p n h
    rw [hhost p n]
    simp [printHost, h, hostLookup_emptyInventory]
  · intro p inv h
    have hl : main_run [p, "--list"] file ks wo
        = printFull (get_inventory file ks wo) := by
      unfold main_run
      rw [if_pos ⟨rfl, rfl⟩]
    rw [hl]
    exact (printFull_ok _ _ h).2

/-- C7, witness: with no context file, a bare invocation equals
`--list`, and `--host` on an unknown name prints the empty object. -/
theorem main_dispatch_witness :
    main_run ["inventory.py"] .missing none .ok
      = main_run ["inventory.py", "--list"] .missing none .ok ∧
    (main_run ["inventory.py", "--host", "prod-web1"]
        .missing none .ok).stdout = some (.obj []) :=
  ⟨(main_dispatch .missing none .ok).1 ["inventory.py"] (by simp),
   (main_dispatch .missing none .ok).2.2.1 "inventory.py" "prod-web1" rfl⟩

/-! ### Claim C8 -/

/-- C8, counterexample.  The claim says the process exit status is 0 in
every case other than a key-file write failure.  A context file holding
the JSON number `0` involves no key write, yet the uncaught
AttributeError from `ctx.get` (line 52) aborts the run with a nonzero
exit status. -/
theorem main_nonzero_exit_without_write_failure :
    (main_run ["inventory.py", "--list"] (.parsed (.num 0)) none
      .ok).exitZero = false := rfl

/-- C8, amended.  When a non-empty string key is present and the
filesystem fails the key-file write or chmod, the IOError propagates:
the process exits nonzero with a traceback (first conjunct).  The exit
status is 0 whenever the context file is missing, unreadable or
unparsable (conjuncts two and three), and on the normal path for an
object context whose connection is a dict with an absent-or-string
private key (fourth conjunct).  The key-write failure is however not the
only non-swallowed failure: content that parses to a non-object JSON
value also exits nonzero (see the counterexample). -/
theorem main_exit_status (argv : List String) (ks : Option KeyFile) :
    (∀ fields conn s wo, connOf fields = .obj conn →
      dictGet conn "private_key" = some (.str s) → s ≠ "" →
      (wo = .writeFails ∨ wo = .chmodFails) →
      (main_run argv (.parsed (.obj fields)) ks wo).exitZero = false ∧
      tracebackMsg ∈
        (main_run argv (.parsed (.obj fields)) ks wo).stderr) ∧
    (∀ wo, (main_run argv .missing ks wo).exitZero = true) ∧
    (∀ wo m, (main_run argv (.ioErr m) ks wo).exitZero = true ∧
             (main_run argv (.parseErr m) ks wo).exitZero = true) ∧
    (∀ fields conn, connOf fields = .obj conn →
      (dictGet conn "private_key" = none ∨
       ∃ s, dictGet conn "private_key" = some (.str s)) →
      (main_run argv (.parsed (.obj fields)) ks .ok).exitZero = true) := by
  refine ⟨?_, ?_, ?_, ?_⟩
  · intro fields conn s wo hc hpk hs hwo
    have hout : (get_inventory (.parsed (.obj fields)) ks wo).output
        = .error .ioError :=
      (inventory_of_ctx_write_failure fields conn s ks wo hc hpk hs hwo).1
    rcases main_run_cases argv (.parsed (.obj fields)) ks wo with
      hm | ⟨h, hm⟩ <;> rw [hm]
    · exact ⟨(printFull_error _ _ hout).1, (printFull_error _ _ hout).2.1⟩
    · exact ⟨(printHost_error _ _ _ hout).1,
             (printHost_error _ _ _ hout).2.1⟩
  · intro wo
    rcases main_run_cases argv .missing ks wo with hm | ⟨h, hm⟩ <;> rw [hm]
    · exact (printFull_ok _ _ rfl).1
    · exact printHost_ok _ _ _ rfl (Or.inl rfl)
  · intro wo m
    constructor
    · rcases main_run_cases argv (.ioErr m) ks wo with hm | ⟨h, hm⟩ <;>
        rw [hm]
      · exact (printFull_ok _ _ rfl).1
      · exact printHost_ok _ _ _ rfl (Or.inl rfl)
    · rcases main_run_cases argv (.parseErr m) ks wo with hm | ⟨h, hm⟩ <;>
        rw [hm]
      · exact (printFull_ok _ _ rfl).1
      · exact printHost_ok _ _ _ rfl (Or.inl rfl)
  · intro fields conn hc hpk
    have hout : (get_inventory (.parsed (.obj fields)) ks .ok).output
        = .ok (inventoryFor (hostNameOf fields) (hostvarsFor conn)) :=
      (inventory_of_ctx_ok fields conn ks hc hpk).1
    rcases main_run_cases argv (.parsed (.obj fields)) ks .ok with
      hm | ⟨h, hm⟩ <;> rw [hm]
    · exact (printFull_ok _ _ hout).1
    · exact printHost_ok _ _ _ hout (Or.inr ⟨_, _, rfl⟩)

/-- C8, witness: on the spec's example context a failing key write exits
nonzero, while a missing context file exits zero. -/
theorem main_exit_status_witness :
    (main_run ["inventory.py", "--list"] (.parsed (.obj exampleFields))
        none .writeFails).exitZero = false ∧
    (main_run ["inventory.py", "--list"] .missing none .ok).exitZero
      = true :=
  ⟨((main_exit_status ["inventory.py", "--list"] none).1 exampleFields
      exampleConn "KEYDATA" .writeFails rfl rfl (by decide)
      (Or.inl rfl)).1,
   (main_exit_status ["inventory.py", "--list"] none).2.1 .ok⟩

end Dockflow
